import Mathlib

/-!
Shallow embedding of the request-building and result-normalization layer of
`app.py` (a Streamlit front-end for fal.ai generative-media models).

The embedding follows the source line by line:
* `MODELS` / `ModelType` — the four generation modes (app.py lines 27-48);
* `baseArgs` / `apiArgs` — the per-mode request payload construction
  (app.py lines 179-210), with Python `dict` modelled as an association
  list in insertion order (keys never collide in the source);
* `parseWH` — the image-to-video `map(int, resolution.split('x')[0:2])`
  parsing (app.py line 196), with Python `int(...)`'s ValueError and the
  tuple-unpacking ValueError modelled as `none`;
* `validateSubmission` — the pre-network validation chain (app.py 161-166);
* `stagedAfterRender` / `resolveFinalImage` — the image staging and
  URL-precedence logic (app.py 102-122 and 170-175);
* `processResult` / `updateResults` — result normalization and history
  insertion (app.py 216-234), with the raw JSON response modelled by
  `JValue` and exceptions (KeyError / TypeError) as `none`.
-/

/-- Primitive JSON values appearing in request payloads and responses.
Floats carry no arithmetic in the source, so they are modelled as `ℚ`. -/
inductive JPrim where
  | str (s : String)
  | int (n : Int)
  | bool (b : Bool)
  | float (q : ℚ)
deriving DecidableEq, Repr

/-- A flat JSON object whose values are primitives (e.g. `{"url": "..."}`). -/
abbrev JObj := List (String × JPrim)

/-- JSON values as inspected by the result-processing code: primitives,
flat objects (the `video` field) and arrays of flat objects (the `images`
field). This covers every shape the source dereferences. -/
inductive JValue where
  | prim (p : JPrim)
  | obj (fs : JObj)
  | arr (xs : List JObj)
deriving DecidableEq, Repr

/-- Python truthiness (`if result.get('video'):` etc.): empty string, zero,
`False`, empty list and empty dict are falsy. -/
def pyTruthyJ : JValue → Bool
  | .prim (.str s) => s != ""
  | .prim (.int n) => n != 0
  | .prim (.bool b) => b
  | .prim (.float q) => q != 0
  | .obj fs => !fs.isEmpty
  | .arr xs => !xs.isEmpty

/-- Lookup of a string key in an association list, first match wins
(Python dicts in the source never hold duplicate keys). -/
def dictGet {α : Type} : List (String × α) → String → Option α
  | [], _ => none
  | (k, v) :: rest, key => if k = key then some v else dictGet rest key

/-- Python's substring test `needle in hay`, via sublist containment on
the character lists. -/
def pyContains (hay needle : String) : Bool :=
  decide (needle.data <:+: hay.data)

/-- Python `str.split(sep)` for a single-character separator: splits at
every occurrence, keeping empty pieces. -/
def splitOnChar (c : Char) : List Char → List (List Char)
  | [] => [[]]
  | x :: xs =>
    match splitOnChar c xs with
    | [] => [[]]
    | r :: rs => if x = c then [] :: r :: rs else (x :: r) :: rs

/-- Python `int(s)` on a string: strips surrounding whitespace, allows one
sign, then requires at least one decimal digit; anything else raises
ValueError, modelled as `none`. -/
def pyIntChars (l : List Char) : Option Int :=
  let t := ((l.dropWhile Char.isWhitespace).reverse.dropWhile Char.isWhitespace).reverse
  let signed : Int × List Char :=
    match t with
    | '-' :: rest => (-1, rest)
    | '+' :: rest => (1, rest)
    | _ => (1, t)
  if signed.2 ≠ [] ∧ signed.2.all Char.isDigit then
    some (signed.1 * (signed.2.foldl (fun acc c => acc * 10 + (c.toNat - 48)) 0 : Nat))
  else none

/-- The parse `width, height = map(int, resolution.split('x')[0:2])`
(app.py line 196): `none` models the ValueError raised either by unpacking
fewer than two pieces or by `int(...)` on a non-numeric piece. -/
def parseWH (resolution : String) : Option (Int × Int) :=
  match (splitOnChar 'x' resolution.data).take 2 with
  | [a, b] =>
    match pyIntChars a, pyIntChars b with
    | some w, some h => some (w, h)
    | _, _ => none
  | _ => none

/-- The aspect-ratio mapping for text-to-video (app.py line 188):
`"16:9" if "16:9" in resolution else "9:16" if "9:16" in resolution else "1:1"`. -/
def aspectOf (resolution : String) : String :=
  if pyContains resolution "16:9" then "16:9"
  else if pyContains resolution "9:16" then "9:16"
  else "1:1"

/-- The four generation modes of the option catalog (app.py lines 27-48). -/
inductive ModelType where
  | textToVideo
  | imageToVideo
  | textToImage
  | imageToImage
deriving DecidableEq, Repr

/-- The static model catalog `MODELS` (app.py lines 27-48):
display name, remote model id, model type, output kind. -/
def MODELS : List (String × String × ModelType × String) :=
  [("Text to Video", "fal-ai/wan-25-preview/text-to-video", .textToVideo, "video"),
   ("Image to Video", "fal-ai/seed-1-image-to-video", .imageToVideo, "video"),
   ("Text to Image", "fal-ai/stable-diffusion-xl-lightning", .textToImage, "image"),
   ("Image to Image", "fal-ai/sdxl-img2img", .imageToImage, "image")]

/-- A request payload: a Python dict of primitive values, in insertion order. -/
abbrev GenerationRequest := List (String × JPrim)

/-- The base arguments common to all modes (app.py lines 179-183):
`{"prompt": prompt}`, then `negative_prompt` if truthy, then `seed` if
it differs from the sentinel `-1`. -/
def baseArgs (prompt negative_prompt : String) (seed : Int) : GenerationRequest :=
  [("prompt", JPrim.str prompt)]
    ++ (if negative_prompt ≠ "" then [("negative_prompt", JPrim.str negative_prompt)] else [])
    ++ (if seed ≠ -1 then [("seed", JPrim.int seed)] else [])

/-- The full request construction (app.py lines 179-210): base arguments
followed by the per-mode extension. `none` models the ValueError escaping
from the image-to-video width/height parse. -/
def apiArgs (model_type : ModelType) (prompt negative_prompt : String) (seed : Int)
    (resolution : String) (duration : Nat) (audio_url : String) (strength : ℚ)
    (final_image_url : String) : Option GenerationRequest :=
  let base := baseArgs prompt negative_prompt seed
  match model_type with
  | .textToVideo =>
    let args := base ++
      [("aspect_ratio", JPrim.str (aspectOf resolution)),
       ("resolution", JPrim.str "1080p"),
       ("duration", JPrim.str (toString duration)),
       ("enable_safety_checker", JPrim.bool false)]
    some (if audio_url ≠ "" then args ++ [("audio_url", JPrim.str audio_url)] else args)
  | .imageToVideo =>
    match parseWH resolution with
    | none => none
    | some (w, h) =>
      some (base ++
        [("image_url", JPrim.str final_image_url),
         ("width", JPrim.int w),
         ("height", JPrim.int h),
         ("enable_safety_checker", JPrim.bool false)])
  | .imageToImage =>
    some (base ++
      [("image_url", JPrim.str final_image_url),
       ("strength", JPrim.float strength),
       ("enable_safety_checker", JPrim.bool false)])
  | .textToImage =>
    some (base ++ [("enable_safety_checker", JPrim.bool false)])

/-- A staged uploaded image, `st.session_state.uploaded_file_data`
(app.py lines 110-114): name, content type and raw bytes. -/
structure FileInfo where
  name : String
  ctype : String
  data : List Nat
deriving DecidableEq, Repr

/-- The staging state after one render of the image-input section
(app.py lines 102-122): a freshly uploaded file overwrites the staged
data; a non-empty URL text then clears the staged data
(`st.session_state.uploaded_file_data = None # Prioritize URL if provided`). -/
def stagedAfterRender (prev_staged : Option FileInfo) (uploaded_file : Option FileInfo)
    (image_url_from_input : String) : Option FileInfo :=
  let after_upload :=
    match uploaded_file with
    | some f => some f
    | none => prev_staged
  if image_url_from_input ≠ "" then none else after_upload

/-- Resolution of the final image URL at submission time (app.py
lines 170-175): start from the URL text; if staged data is present,
upload it and use the returned URL instead. The boolean records whether
the upload call was performed. -/
def resolveFinalImage (image_url_from_input : String) (staged : Option FileInfo)
    (upload : FileInfo → String) : String × Bool :=
  match staged with
  | some f => (upload f, true)
  | none => (image_url_from_input, false)

/-- One render followed by one submission: staging (app.py 102-122) then
image resolution (app.py 170-175). -/
def stageAndResolve (prev_staged : Option FileInfo) (uploaded_file : Option FileInfo)
    (image_url_from_input : String) (upload : FileInfo → String) : String × Bool :=
  resolveFinalImage image_url_from_input
    (stagedAfterRender prev_staged uploaded_file image_url_from_input) upload

/-- Outcome of the pre-network validation chain under the generate button. -/
inductive SubmitOutcome where
  | apiKeyError
  | imageError
  | promptError
  | proceed
deriving DecidableEq, Repr

/-- The validation chain of the generate-button handler (app.py
lines 161-166), in source order: API-key shape, required image, prompt.
`proceed` means the handler enters the try-block that performs the
network calls. -/
def validateSubmission (api_key_to_use : String) (image_input_needed : Bool)
    (staged : Option FileInfo) (image_url_from_input : String) (prompt : String) :
    SubmitOutcome :=
  if api_key_to_use == "" || !pyContains api_key_to_use ":" then .apiKeyError
  else if image_input_needed && staged.isNone && image_url_from_input == "" then .imageError
  else if prompt == "" then .promptError
  else .proceed

/-- A normalized result record as inserted into the history (app.py
lines 223-228): the Python dict `{"url": ..., "type": ..., "seed": ...,
"prompt": ...}`, kept as an association list so that the presence or
absence of a key is expressible. -/
abbrev ResultRecord := List (String × JValue)

/-- A raw API response body, a JSON object. -/
abbrev RawResponse := List (String × JValue)

/-- Result processing (app.py lines 216-228): pick `result['video']` or
`result['images'][0]` when truthy, then build the record, reading `url`
from the output object and `result.get('seed', 'N/A')`. `none` models
every failure path: falsy/absent output field (the "Generation failed"
branch) as well as KeyError/TypeError on the dereferences, in all of
which no record is produced. -/
def processResult (output_type : String) (result : RawResponse) (prompt : String) :
    Option ResultRecord :=
  let output_data : Option JValue :=
    if output_type = "video" then
      match dictGet result "video" with
      | some v => if pyTruthyJ v then some v else none
      | none => none
    else if output_type = "image" then
      match dictGet result "images" with
      | some v =>
        if pyTruthyJ v then
          match v with
          | .arr (o :: _) => some (.obj o)
          | _ => none
        else none
      | none => none
    else none
  match output_data with
  | some (.obj fs) =>
    match dictGet fs "url" with
    | some u =>
      some [("url", JValue.prim u),
            ("type", JValue.prim (.str output_type)),
            ("seed", (dictGet result "seed").getD (JValue.prim (.str "N/A"))),
            ("prompt", JValue.prim (.str prompt))]
    | none => none
  | _ => none

/-- History update after processing (app.py lines 222-228): a produced
record is inserted at index 0 (`results.insert(0, ...)`); otherwise the
history is untouched. -/
def updateResults (results : List ResultRecord) (outcome : Option ResultRecord) :
    List ResultRecord :=
  match outcome with
  | some r => r :: results
  | none => results

/-- N successful submissions starting from the empty history, each
prepending its record (app.py line 223), in submission order. -/
def runSubmissions (recs : List ResultRecord) : List ResultRecord :=
  recs.foldl (fun h r => updateResults h (some r)) []

theorem dictGet_append {α : Type} (xs ys : List (String × α)) (k : String) :
    dictGet (xs ++ ys) k =
      match dictGet xs k with
      | some v => some v
      | none => dictGet ys k := by
  induction xs with
  | nil => simp [dictGet]
  | cons hd tl ih =>
    obtain ⟨k2, v⟩ := hd
    by_cases h : k2 = k
    · simp [dictGet, h]
    · simp [dictGet, h, ih]

theorem dictGet_baseArgs_other (p n : String) (s : Int) (k : String)
    (h1 : k ≠ "prompt") (h2 : k ≠ "negative_prompt") (h3 : k ≠ "seed") :
    dictGet (baseArgs p n s) k = none := by
  unfold baseArgs
  split_ifs <;>
    simp [dictGet_append, dictGet, Ne.symm h1, Ne.symm h2, Ne.symm h3]

theorem dictGet_baseArgs_seed (p n : String) (s : Int) :
    dictGet (baseArgs p n s) "seed" =
      if s = -1 then none else some (JPrim.int s) := by
  unfold baseArgs
  split_ifs <;> simp_all [dictGet_append, dictGet]

theorem dictGet_base_append (p n : String) (s : Int) (rest : GenerationRequest)
    (k : String) (h1 : k ≠ "prompt") (h2 : k ≠ "negative_prompt")
    (h3 : k ≠ "seed") :
    dictGet (baseArgs p n s ++ rest) k = dictGet rest k := by
  rw [dictGet_append, dictGet_baseArgs_other p n s k h1 h2 h3]

theorem dictGet_base_append_seed (p n : String) (s : Int)
    (rest : GenerationRequest) :
    dictGet (baseArgs p n s ++ rest) "seed" =
      if s = -1 then dictGet rest "seed" else some (JPrim.int s) := by
  rw [dictGet_append, dictGet_baseArgs_seed]
  by_cases hs : s = -1 <;> simp [hs]

/-- C1: in every mode and for every combination of form inputs, the built
request carries `enable_safety_checker = false`. -/
theorem apiArgs_safety_checker_false (mt : ModelType) (p n : String) (s : Int)
    (r : String) (d : Nat) (a : String) (q : ℚ) (img : String)
    (args : GenerationRequest)
    (h : apiArgs mt p n s r d a q img = some args) :
    dictGet args "enable_safety_checker" = some (JPrim.bool false) := by
  cases mt with
  | textToVideo =>
    simp only [apiArgs, Option.some.injEq] at h
    subst h
    split_ifs
    · rw [List.append_assoc,
        dictGet_base_append _ _ _ _ _ (by simp) (by simp) (by simp)]
      simp [dictGet]
    · rw [dictGet_base_append _ _ _ _ _ (by simp) (by simp) (by simp)]
      simp [dictGet]
  | imageToVideo =>
    simp only [apiArgs] at h
    cases hp : parseWH r with
    | none => simp [hp] at h
    | some wh =>
      obtain ⟨w, ht⟩ := wh
      simp only [hp, Option.some.injEq] at h
      subst h
      rw [dictGet_base_append _ _ _ _ _ (by simp) (by simp) (by simp)]
      simp [dictGet]
  | textToImage =>
    simp only [apiArgs, Option.some.injEq] at h
    subst h
    rw [dictGet_base_append _ _ _ _ _ (by simp) (by simp) (by simp)]
    simp [dictGet]
  | imageToImage =>
    simp only [apiArgs, Option.some.injEq] at h
    subst h
    rw [dictGet_base_append _ _ _ _ _ (by simp) (by simp) (by simp)]
    simp [dictGet]

theorem apiArgs_safety_checker_false_witness :
    dictGet [("prompt", JPrim.str "p"), ("aspect_ratio", JPrim.str "1:1"),
             ("resolution", JPrim.str "1080p"), ("duration", JPrim.str "5"),
             ("enable_safety_checker", JPrim.bool false)]
        "enable_safety_checker" = some (JPrim.bool false) :=
  apiArgs_safety_checker_false .textToVideo "p" "" (-1) "1024x1024" 5 "" 0 ""
    _ (by decide)

/-- C6: the sentinel seed -1 is omitted from every built request; any other
integer seed value appears verbatim as the `seed` field. -/
theorem apiArgs_seed_field (mt : ModelType) (p n : String) (s : Int)
    (r : String) (d : Nat) (a : String) (q : ℚ) (img : String)
    (args : GenerationRequest)
    (h : apiArgs mt p n s r d a q img = some args) :
    dictGet args "seed" = if s = -1 then none else some (JPrim.int s) := by
  cases mt with
  | textToVideo =>
    simp only [apiArgs, Option.some.injEq] at h
    subst h
    rcases eq_or_ne a "" with ha | ha
    · rw [if_neg (by simp [ha]), dictGet_base_append_seed]
      rcases eq_or_ne s (-1) with hs | hs <;> simp [hs, dictGet]
    · rw [if_pos ha, List.append_assoc, dictGet_base_append_seed]
      rcases eq_or_ne s (-1) with hs | hs <;> simp [hs, dictGet]
  | imageToVideo =>
    simp only [apiArgs] at h
    cases hp : parseWH r with
    | none => simp [hp] at h
    | some wh =>
      obtain ⟨w, ht⟩ := wh
      simp only [hp, Option.some.injEq] at h
      subst h
      rw [dictGet_base_append_seed]
      rcases eq_or_ne s (-1) with hs | hs <;> simp [hs, dictGet]
  | textToImage =>
    simp only [apiArgs, Option.some.injEq] at h
    subst h
    rw [dictGet_base_append_seed]
    rcases eq_or_ne s (-1) with hs | hs <;> simp [hs, dictGet]
  | imageToImage =>
    simp only [apiArgs, Option.some.injEq] at h
    subst h
    rw [dictGet_base_append_seed]
    rcases eq_or_ne s (-1) with hs | hs <;> simp [hs, dictGet]

theorem apiArgs_seed_field_witness :
    dictGet [("prompt", JPrim.str "p"), ("seed", JPrim.int 42),
             ("enable_safety_checker", JPrim.bool false)] "seed"
      = some (JPrim.int 42) := by
  have := apiArgs_seed_field .textToImage "p" "" 42 "1024x1024" 5 "" 0 ""
    [("prompt", JPrim.str "p"), ("seed", JPrim.int 42),
     ("enable_safety_checker", JPrim.bool false)] (by decide)
  simpa using this

theorem dictGet_head_val_irrelevant {α : Type} (xs rest : List (String × α))
    (k0 k : String) (v1 v2 : α) (hk : ¬ (k0 = k)) :
    dictGet (xs ++ ((k0, v1) :: rest)) k = dictGet (xs ++ ((k0, v2) :: rest)) k := by
  rw [dictGet_append, dictGet_append]
  cases hx : dictGet xs k <;> simp [hx, dictGet, hk]

/-- C10: for text-to-video the `resolution` field of the built request is
the constant "1080p" whatever selector entry was chosen; the selection
influences only `aspect_ratio`, mapped into {"16:9", "9:16", "1:1"}. -/
theorem t2v_resolution_constant (p n : String) (s : Int) (d : Nat)
    (a : String) (q : ℚ) (img : String) (r r2 : String)
    (args args2 : GenerationRequest)
    (h : apiArgs .textToVideo p n s r d a q img = some args)
    (h2 : apiArgs .textToVideo p n s r2 d a q img = some args2) :
    dictGet args "resolution" = some (JPrim.str "1080p") ∧
    dictGet args "aspect_ratio" = some (JPrim.str (aspectOf r)) ∧
    (aspectOf r = "16:9" ∨ aspectOf r = "9:16" ∨ aspectOf r = "1:1") ∧
    ∀ k, k ≠ "aspect_ratio" → dictGet args k = dictGet args2 k := by
  simp only [apiArgs, Option.some.injEq] at h h2
  subst h h2
  refine ⟨?_, ?_, ?_, ?_⟩
  · rcases eq_or_ne a "" with ha | ha
    · rw [if_neg (by simp [ha]),
        dictGet_base_append _ _ _ _ _ (by simp) (by simp) (by simp)]
      simp [dictGet]
    · rw [if_pos ha, List.append_assoc,
        dictGet_base_append _ _ _ _ _ (by simp) (by simp) (by simp)]
      simp [dictGet]
  · rcases eq_or_ne a "" with ha | ha
    · rw [if_neg (by simp [ha]),
        dictGet_base_append _ _ _ _ _ (by simp) (by simp) (by simp)]
      simp [dictGet]
    · rw [if_pos ha, List.append_assoc,
        dictGet_base_append _ _ _ _ _ (by simp) (by simp) (by simp)]
      simp [dictGet]
  · unfold aspectOf
    split_ifs <;> simp
  · intro k hk
    have hk2 : ¬ ("aspect_ratio" = k) := fun hh => hk hh.symm
    rcases eq_or_ne a "" with ha | ha
    · rw [if_neg (by simp [ha]), if_neg (by simp [ha])]
      exact dictGet_head_val_irrelevant _ _ _ _ _ _ hk2
    · rw [if_pos ha, if_pos ha, List.append_assoc, List.append_assoc]
      simp only [List.cons_append, List.nil_append]
      exact dictGet_head_val_irrelevant _ _ _ _ _ _ hk2

theorem t2v_resolution_constant_witness :
    dictGet [("prompt", JPrim.str "p"), ("aspect_ratio", JPrim.str "16:9"),
             ("resolution", JPrim.str "1080p"), ("duration", JPrim.str "5"),
             ("enable_safety_checker", JPrim.bool false)] "resolution"
      = some (JPrim.str "1080p") :=
  (t2v_resolution_constant "p" "" (-1) 5 "" 0 "" "1280x720 (16:9)" "1024x1024"
    [("prompt", JPrim.str "p"), ("aspect_ratio", JPrim.str "16:9"),
     ("resolution", JPrim.str "1080p"), ("duration", JPrim.str "5"),
     ("enable_safety_checker", JPrim.bool false)]
    [("prompt", JPrim.str "p"), ("aspect_ratio", JPrim.str "1:1"),
     ("resolution", JPrim.str "1080p"), ("duration", JPrim.str "5"),
     ("enable_safety_checker", JPrim.bool false)]
    (by decide) (by decide)).1

/-- C2 (code bug): `map(int, resolution.split('x')[0:2])` raises ValueError
on the selector entries that carry an aspect-ratio suffix — `int("720
(16:9)")` is not a valid integer literal — so for "1280x720 (16:9)" no
width/height is extracted and no image-to-video request is built; only the
suffix-free entries parse. -/
theorem parseWH_failing_input :
    parseWH "1280x720 (16:9)" = none ∧
    parseWH "720x1280 (9:16)" = none ∧
    parseWH "1024x1024" = some (1024, 1024) ∧
    parseWH "1024x576" = some (1024, 576) ∧
    apiArgs .imageToVideo "p" "" (-1) "1280x720 (16:9)" 5 "" 0 "https://img"
      = none := by
  decide

/-- C5 counterexample: a whitespace-only prompt " " is truthy in Python, so
`elif not prompt` does not fire and the handler proceeds to the network
call instead of failing validation. -/
theorem whitespace_prompt_passes_validation :
    validateSubmission "id:secret" false none "" " " = SubmitOutcome.proceed ∧
    " " ≠ "" ∧ (" ").data.all Char.isWhitespace = true := by
  decide

/-- C5 amended: a (literally) empty prompt never reaches the network call —
one of the three validation errors fires first, for every mode; whitespace-
only prompts, being truthy, are not rejected. -/
theorem empty_prompt_never_proceeds (api_key : String) (needed : Bool)
    (staged : Option FileInfo) (url : String) (prompt : String)
    (h : prompt = "") :
    validateSubmission api_key needed staged url prompt ≠
      SubmitOutcome.proceed := by
  subst h
  unfold validateSubmission
  split_ifs <;> simp_all

theorem empty_prompt_never_proceeds_witness :
    validateSubmission "id:secret" false none "" "" ≠ SubmitOutcome.proceed :=
  empty_prompt_never_proceeds "id:secret" false none "" "" rfl

/-- C8: a non-empty direct URL clears the staged bytes during the render
(`# Prioritize URL if provided`), so the submission resolves to the URL and
performs no upload call, whatever was staged before or uploaded in the
widget. -/
theorem url_precedence (prev_staged uploaded_file : Option FileInfo)
    (url : String) (upload : FileInfo → String) (h : url ≠ "") :
    stageAndResolve prev_staged uploaded_file url upload = (url, false) := by
  unfold stageAndResolve stagedAfterRender resolveFinalImage
  simp [h]

theorem url_precedence_witness :
    stageAndResolve (some ⟨"a.png", "image/png", [1, 2]⟩)
      (some ⟨"b.png", "image/png", [3]⟩) "https://x/img.png"
      (fun f => String.append "https://fal/" f.name)
      = ("https://x/img.png", false) :=
  url_precedence _ _ _ _ (by decide)

/-- C9: starting from the empty history, N successful submissions leave
exactly N records, newest first (each submission prepends one record via
`results.insert(0, ...)` and never removes or mutates existing ones). -/
theorem runSubmissions_newest_first (recs : List ResultRecord) :
    runSubmissions recs = recs.reverse ∧
    (runSubmissions recs).length = recs.length := by
  have key : ∀ (l acc : List ResultRecord),
      l.foldl (fun h r => updateResults h (some r)) acc = l.reverse ++ acc := by
    intro l
    induction l with
    | nil => intro acc; simp
    | cons hd tl ih => intro acc; simp [updateResults, ih]
  have h1 : runSubmissions recs = recs.reverse := by
    simpa [runSubmissions] using key recs []
  exact ⟨h1, by rw [h1]; simp⟩

/-- C7: a successful-status response missing the required output field — a
video object carrying no `url`, or an empty `images` array — produces no
normalized record (the "Generation failed" / exception paths) and leaves
the result history unchanged. -/
theorem missing_output_field_no_record (result : RawResponse) (p : String)
    (fs : JObj) (hist : List ResultRecord) :
    (dictGet result "video" = some (JValue.obj fs) →
      dictGet fs "url" = none →
      processResult "video" result p = none ∧
      updateResults hist (processResult "video" result p) = hist) ∧
    (dictGet result "images" = some (JValue.arr []) →
      processResult "image" result p = none ∧
      updateResults hist (processResult "image" result p) = hist) := by
  constructor
  · intro hv hu
    have hp : processResult "video" result p = none := by
      cases fs with
      | nil => simp [processResult, hv, pyTruthyJ]
      | cons a l => simp [processResult, hv, pyTruthyJ, hu]
    exact ⟨hp, by simp [hp, updateResults]⟩
  · intro hi
    have hp : processResult "image" result p = none := by
      simp [processResult, hi, pyTruthyJ]
    exact ⟨hp, by simp [hp, updateResults]⟩

theorem missing_output_field_no_record_witness :
    (processResult "video" [("video", JValue.obj [])] "P" = none ∧
      updateResults [] (processResult "video" [("video", JValue.obj [])] "P")
        = []) ∧
    (processResult "image" [("images", JValue.arr [])] "P" = none ∧
      updateResults [] (processResult "image" [("images", JValue.arr [])] "P")
        = []) :=
  ⟨(missing_output_field_no_record [("video", JValue.obj [])] "P" [] []).1
      (by decide) (by decide),
   (missing_output_field_no_record [("images", JValue.arr [])] "P" [] []).2
      (by decide)⟩

/-- C3 counterexample: the code never reads `actual_prompt`, so normalizing
the synthetic video response yields a record with no `expandedPrompt`
field at all — not one carrying "P2". -/
theorem video_response_no_expandedPrompt :
    processResult "video"
      [("video", JValue.obj [("url", JPrim.str "https://x/a.mp4")]),
       ("seed", JValue.prim (JPrim.int 7)),
       ("actual_prompt", JValue.prim (JPrim.str "P2"))] "P1"
    = some [("url", JValue.prim (JPrim.str "https://x/a.mp4")),
            ("type", JValue.prim (JPrim.str "video")),
            ("seed", JValue.prim (JPrim.int 7)),
            ("prompt", JValue.prim (JPrim.str "P1"))] ∧
    dictGet [("url", JValue.prim (JPrim.str "https://x/a.mp4")),
             ("type", JValue.prim (JPrim.str "video")),
             ("seed", JValue.prim (JPrim.int 7)),
             ("prompt", JValue.prim (JPrim.str "P1"))] "expandedPrompt"
      ≠ some (JValue.prim (JPrim.str "P2")) := by
  decide

/-- C3 amended: normalizing the synthetic video response with original
prompt "P1" yields {url: "https://x/a.mp4", kind: video, seed: 7,
prompt: "P1"}; `actual_prompt` is ignored — no normalized record ever
carries an `expandedPrompt` (or `actual_prompt`) field. -/
theorem video_roundtrip_no_expansion :
    (processResult "video"
      [("video", JValue.obj [("url", JPrim.str "https://x/a.mp4")]),
       ("seed", JValue.prim (JPrim.int 7)),
       ("actual_prompt", JValue.prim (JPrim.str "P2"))] "P1"
    = some [("url", JValue.prim (JPrim.str "https://x/a.mp4")),
            ("type", JValue.prim (JPrim.str "video")),
            ("seed", JValue.prim (JPrim.int 7)),
            ("prompt", JValue.prim (JPrim.str "P1"))]) ∧
    ∀ (ot : String) (result : RawResponse) (p : String) (rec : ResultRecord),
      processResult ot result p = some rec →
      dictGet rec "expandedPrompt" = none ∧
      dictGet rec "actual_prompt" = none := by
  refine ⟨by decide, ?_⟩
  intro ot result p rec h
  simp only [processResult] at h
  split at h
  · split at h
    · injection h with h
      subst h
      simp [dictGet]
    · exact absurd h (by simp)
  · exact absurd h (by simp)

theorem video_roundtrip_no_expansion_witness :
    dictGet [("url", JValue.prim (JPrim.str "https://x/a.mp4")),
             ("type", JValue.prim (JPrim.str "video")),
             ("seed", JValue.prim (JPrim.int 7)),
             ("prompt", JValue.prim (JPrim.str "P1"))] "expandedPrompt" = none ∧
    dictGet [("url", JValue.prim (JPrim.str "https://x/a.mp4")),
             ("type", JValue.prim (JPrim.str "video")),
             ("seed", JValue.prim (JPrim.int 7)),
             ("prompt", JValue.prim (JPrim.str "P1"))] "actual_prompt" = none :=
  video_roundtrip_no_expansion.2 "video"
    [("video", JValue.obj [("url", JPrim.str "https://x/a.mp4")]),
     ("seed", JValue.prim (JPrim.int 7)),
     ("actual_prompt", JValue.prim (JPrim.str "P2"))] "P1"
    [("url", JValue.prim (JPrim.str "https://x/a.mp4")),
     ("type", JValue.prim (JPrim.str "video")),
     ("seed", JValue.prim (JPrim.int 7)),
     ("prompt", JValue.prim (JPrim.str "P1"))] (by decide)

/-- C4 counterexample: the absent-seed sentinel written into the record is
the string "N/A", not "unknown". -/
theorem seed_sentinel_not_unknown :
    processResult "image"
      [("images", JValue.arr [[("url", JPrim.str "https://x/a.png")]])] "p"
    = some [("url", JValue.prim (JPrim.str "https://x/a.png")),
            ("type", JValue.prim (JPrim.str "image")),
            ("seed", JValue.prim (JPrim.str "N/A")),
            ("prompt", JValue.prim (JPrim.str "p"))] ∧
    dictGet [("url", JValue.prim (JPrim.str "https://x/a.png")),
             ("type", JValue.prim (JPrim.str "image")),
             ("seed", JValue.prim (JPrim.str "N/A")),
             ("prompt", JValue.prim (JPrim.str "p"))] "seed"
      ≠ some (JValue.prim (JPrim.str "unknown")) := by
  decide

/-- C4 amended: for every successful response with no `seed` field the
record's seed is the sentinel string "N/A" (not "unknown"), and the record
carries no `expandedPrompt` field; in particular the synthetic image
response normalizes that way. -/
theorem seed_sentinel_na (ot : String) (result : RawResponse) (p : String)
    (rec : ResultRecord) (hseed : dictGet result "seed" = none)
    (h : processResult ot result p = some rec) :
    dictGet rec "seed" = some (JValue.prim (JPrim.str "N/A")) ∧
    dictGet rec "expandedPrompt" = none := by
  simp only [processResult] at h
  split at h
  · split at h
    · injection h with h
      subst h
      simp [dictGet, hseed]
    · exact absurd h (by simp)
  · exact absurd h (by simp)

theorem seed_sentinel_na_witness :
    dictGet [("url", JValue.prim (JPrim.str "https://x/a.png")),
             ("type", JValue.prim (JPrim.str "image")),
             ("seed", JValue.prim (JPrim.str "N/A")),
             ("prompt", JValue.prim (JPrim.str "p"))] "seed"
      = some (JValue.prim (JPrim.str "N/A")) ∧
    dictGet [("url", JValue.prim (JPrim.str "https://x/a.png")),
             ("type", JValue.prim (JPrim.str "image")),
             ("seed", JValue.prim (JPrim.str "N/A")),
             ("prompt", JValue.prim (JPrim.str "p"))] "expandedPrompt" = none :=
  seed_sentinel_na "image"
    [("images", JValue.arr [[("url", JPrim.str "https://x/a.png")]])] "p"
    [("url", JValue.prim (JPrim.str "https://x/a.png")),
     ("type", JValue.prim (JPrim.str "image")),
     ("seed", JValue.prim (JPrim.str "N/A")),
     ("prompt", JValue.prim (JPrim.str "p"))] (by decide) (by decide)
